import Mathlib

set_option autoImplicit false

/-!
Verification of the browser-use repository's HTTP traffic model
(`browser_use/http.py`) and browser session manager
(`browser_use/browser/browser.py`) against its specification.

The Python code is shallowly embedded: Python `dict` values become
association lists in insertion order, `bytes` become `List Nat`,
`Optional[str]` becomes `Option String`, JSON documents become an
inductive `JValue`, raised exceptions become `Except`/`Option`, and
Python truthiness tests (`if x:`) are modelled explicitly by the
`pyTruthy*` helpers (`None` and the empty string / empty collection
are falsy).
-/

/-! ## Python-semantics helpers -/

/-- Truthiness of a Python `Optional[str]`: `None` and `""` are falsy. -/
def pyTruthyStrOpt : Option String → Bool
  | none => false
  | some s => decide (s ≠ "")

/-- Truthiness of a Python `Optional[bytes]`: `None` and `b""` are falsy. -/
def pyTruthyBytesOpt : Option (List Nat) → Bool
  | none => false
  | some bs => decide (bs ≠ [])

/-- UTF-8 encoding of one unicode scalar value, as `str.encode` produces. -/
def utf8EncodeChar (c : Char) : List Nat :=
  let n := c.toNat
  if n < 0x80 then [n]
  else if n < 0x800 then [0xC0 + n / 64, 0x80 + n % 64]
  else if n < 0x10000 then [0xE0 + n / 4096, 0x80 + n / 64 % 64, 0x80 + n % 64]
  else [0xF0 + n / 262144, 0x80 + n / 4096 % 64, 0x80 + n / 64 % 64, 0x80 + n % 64]

/-- Models Python `str.encode()` (UTF-8) on a text value. -/
def utf8Encode (s : String) : List Nat :=
  (s.toList.map utf8EncodeChar).flatten

/-- Lower-case hexadecimal digit, as Python's `\xhh` escapes use. -/
def hexDigit (n : Nat) : Char :=
  Char.ofNat (if n < 10 then 48 + n else 87 + n)

/-- Two lower-case hex digits of a byte. -/
def hexByte (b : Nat) : String :=
  String.mk [hexDigit (b / 16 % 16), hexDigit (b % 16)]

/-- One byte of Python's `repr(bytes)`, given the chosen quote byte. -/
def escByte (quote : Nat) (b : Nat) : String :=
  if b = quote || b = 92 then String.mk [Char.ofNat 92, Char.ofNat b]
  else if b = 9 then "\\t"
  else if b = 10 then "\\n"
  else if b = 13 then "\\r"
  else if b < 32 || 127 ≤ b then "\\x" ++ hexByte b
  else String.mk [Char.ofNat b]

/-- Models Python `str(bytes)`, i.e. `repr`: `b'...'` with escapes.
The quote is `'` unless the bytes contain `'` but no `"`. -/
def pyStrBytes (bs : List Nat) : String :=
  let quote : Nat := if bs.contains 39 && !(bs.contains 34) then 34 else 39
  "b" ++ String.mk [Char.ofNat quote]
    ++ String.join (bs.map (escByte quote))
    ++ String.mk [Char.ofNat quote]

/-- One character of Python `repr(str)` (printable non-ASCII kept as-is). -/
def escChar (quote : Nat) (c : Char) : String :=
  if c.toNat = quote || c.toNat = 92 then String.mk [Char.ofNat 92, c]
  else if c.toNat = 9 then "\\t"
  else if c.toNat = 10 then "\\n"
  else if c.toNat = 13 then "\\r"
  else if c.toNat < 32 || c.toNat = 127 then "\\x" ++ hexByte c.toNat
  else String.mk [c]

/-- Models Python `repr(str)` for the strings appearing in header dicts. -/
def pyReprStr (s : String) : String :=
  let cs := s.toList
  let quote : Nat :=
    if cs.contains (Char.ofNat 39) && !(cs.contains (Char.ofNat 34)) then 34 else 39
  String.mk [Char.ofNat quote] ++ String.join (cs.map (escChar quote))
    ++ String.mk [Char.ofNat quote]

/-- Models Python `str(dict)` on a `Dict[str, str]` (insertion order kept). -/
def pyStrStrDict (hs : List (String × String)) : String :=
  "\x7b" ++ String.intercalate ", "
      (hs.map fun kv => pyReprStr kv.1 ++ ": " ++ pyReprStr kv.2)
    ++ "\x7d"

/-- The 66 aligned runs of ten Unicode decimal digit characters
(Numeric_Type=Decimal, category Nd) of the interpreter's Unicode data:
the character `start + v` has decimal value `v`. -/
def decimalDigitRuns : List Nat :=
  [0x30, 0x660, 0x6F0, 0x7C0, 0x966, 0x9E6, 0xA66, 0xAE6,
   0xB66, 0xBE6, 0xC66, 0xCE6, 0xD66, 0xDE6, 0xE50, 0xED0,
   0xF20, 0x1040, 0x1090, 0x17E0, 0x1810, 0x1946, 0x19D0, 0x1A80,
   0x1A90, 0x1B50, 0x1BB0, 0x1C40, 0x1C50, 0xA620, 0xA8D0, 0xA900,
   0xA9D0, 0xA9F0, 0xAA50, 0xABF0, 0xFF10, 0x104A0, 0x10D30, 0x11066,
   0x110F0, 0x11136, 0x111D0, 0x112F0, 0x11450, 0x114D0, 0x11650, 0x116C0,
   0x11730, 0x118E0, 0x11950, 0x11C50, 0x11D50, 0x11DA0, 0x16A60, 0x16AC0,
   0x16B50, 0x1D7CE, 0x1D7D8, 0x1D7E2, 0x1D7EC, 0x1D7F6, 0x1E140, 0x1E2F0,
   0x1E950, 0x1FBF0]

/-- The 128 characters that satisfy `str.isdigit` without having a
decimal value (Numeric_Type=Digit, e.g. superscripts and circled
digits), as closed code-point ranges. `int()` raises on these. -/
def digitOnlyRanges : List (Nat × Nat) :=
  [(0xB2, 0xB3), (0xB9, 0xB9), (0x1369, 0x1371), (0x19DA, 0x19DA), (0x2070, 0x2070),
   (0x2074, 0x2079), (0x2080, 0x2089), (0x2460, 0x2468), (0x2474, 0x247C), (0x2488, 0x2490),
   (0x24EA, 0x24EA), (0x24F5, 0x24FD), (0x24FF, 0x24FF), (0x2776, 0x277E), (0x2780, 0x2788),
   (0x278A, 0x2792), (0x10A40, 0x10A43), (0x10E60, 0x10E68), (0x11052, 0x1105A), (0x1F100, 0x1F10A)]

/-- The Unicode decimal value of a character, when it has one (the data
`int()` parses by). -/
def pyCharDecimal (c : Char) : Option Nat :=
  (decimalDigitRuns.find? (fun s => s ≤ c.toNat && c.toNat < s + 10)).map
    (fun s => c.toNat - s)

/-- Models Python `str.isdigit` on one character: either a decimal digit
or a digit-only character such as '²'. -/
def pyCharIsDigit (c : Char) : Bool :=
  (pyCharDecimal c).isSome
    || digitOnlyRanges.any (fun r => r.1 ≤ c.toNat && c.toNat ≤ r.2)

/-- Models Python `str.isdigit`: non-empty and all digit characters
(decimal or not). -/
def pyIsDigit (s : String) : Bool :=
  decide (s ≠ "") && s.toList.all pyCharIsDigit

/-- Models Python `int(...)` on a string that already passed
`str.isdigit` (the only way it is called here): it succeeds exactly when
every character has a decimal value, producing the base-10 value of
those decimal values, and otherwise raises `ValueError` whose message
carries the repr of the string — so `int('٣')` is 3 while `int('²')`
raises. -/
def pyIntOfDigits (s : String) : Except String Int :=
  match s.toList.mapM pyCharDecimal with
  | some ds => .ok ((ds.foldl (fun a d => a * 10 + d) 0 : Nat) : Int)
  | none => .error ("invalid literal for int() with base 10: " ++ pyReprStr s)

/-! ## JSON documents -/

/-- A JSON value, as produced by the `to_json` methods and consumed by
`from_json` / `json.load`. Dicts keep insertion order. -/
inductive JValue where
  | jnull
  | jbool (b : Bool)
  | jint (n : Int)
  | jstr (s : String)
  | jarr (elems : List JValue)
  | jdict (entries : List (String × JValue))

/-- A JSON dict: keys in insertion order, no duplicates by construction. -/
abbrev JDict := List (String × JValue)

def jAsStr : JValue → Option String
  | .jstr s => some s
  | _ => none

def jAsInt : JValue → Option Int
  | .jint n => some n
  | _ => none

def jAsBool : JValue → Option Bool
  | .jbool b => some b
  | _ => none

/-- A JSON value that is either null (Python `None`) or a string. -/
def jAsStrOpt : JValue → Option (Option String)
  | .jnull => some none
  | .jstr s => some (some s)
  | _ => none

def jAsDict : JValue → Option JDict
  | .jdict d => some d
  | _ => none

def jAsArr : JValue → Option (List JValue)
  | .jarr l => some l
  | _ => none

/-- A Python `Optional[str]` as stored in JSON: `None` becomes null. -/
def jOfStrOpt : Option String → JValue
  | none => .jnull
  | some s => .jstr s

/-- Reads a JSON dict of string values back into a `Dict[str, str]`. -/
def strEntries : List (String × JValue) → Option (List (String × String))
  | [] => some []
  | (k, v) :: rest => do
      let s ← jAsStr v
      let tail ← strEntries rest
      pure ((k, s) :: tail)

def jAsStrMap : JValue → Option (List (String × String))
  | .jdict d => strEntries d
  | _ => none

/-- Python truthiness of a JSON value (`if data.get("response"):`). -/
def jTruthy : JValue → Bool
  | .jnull => false
  | .jbool b => b
  | .jint n => decide (n ≠ 0)
  | .jstr s => decide (s ≠ "")
  | .jarr l => !l.isEmpty
  | .jdict d => !d.isEmpty

/-! ## HTTP traffic model (`browser_use/http.py`) -/

/-- Internal representation of HTTP request data (`HTTPRequestData`). -/
structure HTTPRequestData where
  method : String
  url : String
  headers : List (String × String)
  post_data : Option String
  redirected_from_url : Option String
  redirected_to_url : Option String
  is_iframe : Bool
deriving DecidableEq

/-- `HTTPRequest.to_json`. -/
def HTTPRequest.to_json (r : HTTPRequestData) : JDict :=
  [("method", .jstr r.method),
   ("url", .jstr r.url),
   ("headers", .jdict (r.headers.map fun kv => (kv.1, JValue.jstr kv.2))),
   ("post_data", jOfStrOpt r.post_data),
   ("redirected_from", jOfStrOpt r.redirected_from_url),
   ("redirected_to", jOfStrOpt r.redirected_to_url),
   ("is_iframe", .jbool r.is_iframe)]

/-- `HTTPRequest.from_json`; indexing a missing key or a non-dict raises,
modelled as `none`. -/
def HTTPRequest.from_json (v : JValue) : Option HTTPRequestData := do
  let d ← jAsDict v
  let method ← d.lookup "method" >>= jAsStr
  let url ← d.lookup "url" >>= jAsStr
  let headers ← d.lookup "headers" >>= jAsStrMap
  let post_data ← d.lookup "post_data" >>= jAsStrOpt
  let redirected_from_url ← d.lookup "redirected_from" >>= jAsStrOpt
  let redirected_to_url ← d.lookup "redirected_to" >>= jAsStrOpt
  let is_iframe ← d.lookup "is_iframe" >>= jAsBool
  pure ⟨method, url, headers, post_data, redirected_from_url,
        redirected_to_url, is_iframe⟩

/-- Internal representation of HTTP response data (`HTTPResponseData`). -/
structure HTTPResponseData where
  url : String
  status : Int
  headers : List (String × String)
  is_iframe : Bool
  body : Option (List Nat) := none
  body_error : Option String := none
deriving DecidableEq

/-- `HTTPResponse.get_body`: raising is modelled by `Except.error` carrying
the exception message. Note the source tests `if self._data.body_error:`
(truthiness) but `if self._data.body is None:` (identity). -/
def HTTPResponse.get_body (r : HTTPResponseData) : Except String (List Nat) :=
  if pyTruthyStrOpt r.body_error then .error (r.body_error.getD "")
  else match r.body with
    | none => .error "Response body not available"
    | some bs => .ok bs

/-- `HTTPResponse.get_content_type`. Lowercasing is modelled for ASCII
header values (`str.lower` is Unicode-aware; value-level only — the
field is never read back by `from_json`). -/
def HTTPResponse.get_content_type (r : HTTPResponseData) : String :=
  if r.headers = [] then ""
  else String.map Char.toLower ((r.headers.lookup "content-type").getD "")

/-- `HTTPResponse.get_response_size`: the guard uses `isdigit`, which
also accepts non-decimal digit characters that `int()` rejects, so the
`int()` call can raise — the result is an `Except` carrying the
`ValueError` message. -/
def HTTPResponse.get_response_size (r : HTTPResponseData) : Except String Int :=
  if r.headers = [] then .ok 0
  else match r.headers.lookup "content-length" with
    | none => .ok 0
    | some s => if decide (s ≠ "") && pyIsDigit s then pyIntOfDigits s else .ok 0

/-- The six entries every serialized response starts with (the `json_data`
dict built first by `HTTPResponse.to_json`). The `content_length` entry
defaults to 0 exactly on the inputs where `get_response_size` raises; on
those the program's serialization produces no JSON at all, which
`HTTPResponse.to_json_checked` models. -/
def respBaseDict (r : HTTPResponseData) : JDict :=
  [("url", .jstr r.url),
   ("status", .jint r.status),
   ("headers", .jdict (r.headers.map fun kv => (kv.1, JValue.jstr kv.2))),
   ("content_type", .jstr (HTTPResponse.get_content_type r)),
   ("content_length", .jint ((HTTPResponse.get_response_size r).toOption.getD 0)),
   ("is_iframe", .jbool r.is_iframe)]

/-- `HTTPResponse.to_json`: the body/body-error entries are appended only
outside redirect statuses, with `body_error` checked first, both by
Python truthiness. -/
def HTTPResponse.to_json (r : HTTPResponseData) : JDict :=
  if ¬ (300 ≤ r.status ∧ r.status < 400) then
    if pyTruthyStrOpt r.body_error then
      respBaseDict r ++ [("body_error", JValue.jstr (r.body_error.getD ""))]
    else if pyTruthyBytesOpt r.body then
      respBaseDict r ++ [("body", JValue.jstr (pyStrBytes (r.body.getD [])))]
    else respBaseDict r
  else respBaseDict r

/-- `HTTPResponse.from_json`: a persisted body text is re-encoded to bytes
(`data.get("body", "").encode() if "body" in data else None`). -/
def HTTPResponse.from_json (v : JValue) : Option HTTPResponseData := do
  let d ← jAsDict v
  let url ← d.lookup "url" >>= jAsStr
  let status ← d.lookup "status" >>= jAsInt
  let headers ← d.lookup "headers" >>= jAsStrMap
  let is_iframe ← d.lookup "is_iframe" >>= jAsBool
  let body ← match d.lookup "body" with
    | some bv => (jAsStr bv).map (fun s => some (utf8Encode s))
    | none => pure none
  let body_error ← match d.lookup "body_error" with
    | some ev => jAsStrOpt ev
    | none => pure none
  pure ⟨url, status, headers, is_iframe, body, body_error⟩

/-- `HTTPResponse.from_pw`: a response freshly normalized from the live
engine carries neither a body nor a body error. -/
def HTTPResponse.from_pw (url : String) (status : Int)
    (headers : List (String × String)) (is_iframe : Bool) : HTTPResponseData :=
  { url := url, status := status, headers := headers, is_iframe := is_iframe }

/-- The header part shared by every branch of `HTTPResponse.to_str`. -/
def HTTPResponse.to_str_head (r : HTTPResponseData) : String :=
  "[Response]: " ++ r.url ++ " " ++ toString r.status ++ "\n"
    ++ (if r.is_iframe then "From iframe\n" else "")
    ++ pyStrStrDict r.headers ++ "\n"

/-- `HTTPResponse.to_str`: redirect statuses short-circuit to a fixed
"no body" marker; otherwise the body is fetched and a fetch error is
rendered inline. -/
def HTTPResponse.to_str (r : HTTPResponseData) : String :=
  if 300 ≤ r.status ∧ r.status < 400 then
    HTTPResponse.to_str_head r ++ "[Redirect response - no body]"
  else match HTTPResponse.get_body r with
    | .ok bs => HTTPResponse.to_str_head r ++ pyStrBytes bs
    | .error e => HTTPResponse.to_str_head r ++ "[Error getting response body: " ++ e ++ "]"

/-- `HTTPMessage`: a request with an optional response. -/
structure HTTPMessage where
  request : HTTPRequestData
  response : Option HTTPResponseData
deriving DecidableEq

/-- `HTTPMessage.to_json`: a `response` entry only when a response exists
(an `HTTPResponse` object is always truthy). -/
def HTTPMessage.to_json (m : HTTPMessage) : JDict :=
  [("request", JValue.jdict (HTTPRequest.to_json m.request))] ++
  (match m.response with
   | some r => [("response", JValue.jdict (HTTPResponse.to_json r))]
   | none => [])

/-- `HTTPMessage.from_json`: the response is parsed only when
`data.get("response")` is truthy. -/
def HTTPMessage.from_json (v : JValue) : Option HTTPMessage := do
  let d ← jAsDict v
  let reqV ← d.lookup "request"
  let request ← HTTPRequest.from_json reqV
  let response ← match d.lookup "response" with
    | some rv => if jTruthy rv then (HTTPResponse.from_json rv).map some else pure none
    | none => pure none
  pure ⟨request, response⟩

/-- `HTTPMessageSession`: a named, ordered collection of messages. -/
structure HTTPMessageSession where
  messages : List HTTPMessage
  name : String
deriving DecidableEq

/-- `HTTPMessageSession.to_json`. -/
def HTTPMessageSession.to_json (s : HTTPMessageSession) : JDict :=
  [("name", .jstr s.name),
   ("messages", .jarr (s.messages.map fun m => JValue.jdict (HTTPMessage.to_json m)))]

/-- The list comprehension in `HTTPMessageSession.from_json`: each element
is parsed in order, the first failure aborting the whole parse. -/
def parseMessages : List JValue → Option (List HTTPMessage)
  | [] => some []
  | v :: vs => do
      let m ← HTTPMessage.from_json v
      let rest ← parseMessages vs
      pure (m :: rest)

/-- `HTTPMessageSession.from_json`. -/
def HTTPMessageSession.from_json (d : JDict) : Option HTTPMessageSession := do
  let msgsV ← d.lookup "messages"
  let arr ← jAsArr msgsV
  let messages ← parseMessages arr
  let name ← d.lookup "name" >>= jAsStr
  pure ⟨messages, name⟩

/-- Whether `get_response_size` — and hence serialization of this
optional response — raises. -/
def respSizeOK : Option HTTPResponseData → Bool
  | none => true
  | some r => (HTTPResponse.get_response_size r).toOption.isSome

/-- `HTTPResponse.to_json` with the program's raising path: building the
`json_data` dict calls `get_response_size`, whose `ValueError`
propagates; when nothing is raised the produced dict is exactly
`HTTPResponse.to_json`. -/
def HTTPResponse.to_json_checked (r : HTTPResponseData) : Except String JDict :=
  match HTTPResponse.get_response_size r with
  | .error e => .error e
  | .ok _ => .ok (HTTPResponse.to_json r)

/-- `HTTPMessage.to_json` with the response serializer's raising path. -/
def HTTPMessage.to_json_checked (m : HTTPMessage) : Except String JDict :=
  match m.response with
  | none => .ok (HTTPMessage.to_json m)
  | some r =>
      match HTTPResponse.to_json_checked r with
      | .error e => .error e
      | .ok _ => .ok (HTTPMessage.to_json m)

/-- Serializing the message list with the raising path: the first raising
message aborts the whole serialization. -/
def msgsToJsonChecked : List HTTPMessage → Except String (List JValue)
  | [] => .ok []
  | m :: ms =>
      match HTTPMessage.to_json_checked m with
      | .error e => .error e
      | .ok j =>
          match msgsToJsonChecked ms with
          | .error e => .error e
          | .ok rest => .ok (.jdict j :: rest)

/-- `HTTPMessageSession.to_json` with the raising path of body-size
computation. -/
def HTTPMessageSession.to_json_checked (s : HTTPMessageSession) : Except String JDict :=
  match msgsToJsonChecked s.messages with
  | .error e => .error e
  | .ok msgs => .ok [("name", .jstr s.name), ("messages", .jarr msgs)]

/-! ## Browser session manager (`browser_use/browser/browser.py`) -/

/-- The applied proxy descriptor (`playwright ProxySettings`): credentials
and bypass list are included only when present. -/
structure ProxySettings where
  server : String
  username : Option String := none
  password : Option String := none
  bypass : Option String := none
deriving DecidableEq

/-- `BrowserConfig`, with the source's defaults. -/
structure BrowserConfig where
  headless : Bool := false
  disable_security : Bool := true
  extra_chromium_args : List String := []
  chrome_instance_path : Option String := none
  wss_url : Option String := none
  cdp_url : Option String := none
  proxy_server : Option String := none
  proxy_username : Option String := none
  proxy_password : Option String := none
  proxy_bypass : Option String := none
  ignore_https_errors : Bool := false
  proxy_ca_cert : Option String := none
  _force_keep_browser_alive : Bool := false
  user_data_dir : Option String := none
deriving DecidableEq

/-- `BrowserConfig.__post_init__`: computes `self.proxy`. Dataclass
construction can raise in principle, so the result is an `Except`; the
source's body contains no raise, and credentials are added only when
both username and password are truthy. -/
def BrowserConfig.post_init (cfg : BrowserConfig) : Except String (Option ProxySettings) :=
  .ok <|
    if pyTruthyStrOpt cfg.proxy_server then
      some { server := cfg.proxy_server.getD ""
             username :=
               if pyTruthyStrOpt cfg.proxy_username && pyTruthyStrOpt cfg.proxy_password
               then cfg.proxy_username else none
             password :=
               if pyTruthyStrOpt cfg.proxy_username && pyTruthyStrOpt cfg.proxy_password
               then cfg.proxy_password else none
             bypass := if pyTruthyStrOpt cfg.proxy_bypass then cfg.proxy_bypass else none }
    else none

/-- The four acquisition strategies of `Browser._setup_browser`. -/
inductive Strategy where
  | cdp
  | wss
  | chromeInstance
  | standard
deriving DecidableEq

/-- `Browser._setup_browser`: which strategy is invoked, following the
source's `if`/`if`/`elif`/`else` chain over truthiness of the selectors. -/
def setup_browser_strategy (cfg : BrowserConfig) : Strategy :=
  if pyTruthyStrOpt cfg.cdp_url then .cdp
  else if pyTruthyStrOpt cfg.wss_url then .wss
  else if pyTruthyStrOpt cfg.chrome_instance_path then .chromeInstance
  else .standard

/-- The mutable state of a `Browser` instance: its config and the
`playwright` / `playwright_browser` fields (`None` or a live resource,
identified by an opaque id). -/
structure BrowserState where
  config : BrowserConfig
  playwright : Option Nat := none
  playwright_browser : Option Nat := none
deriving DecidableEq

/-- Engine-level teardown calls observable during `Browser.close`. -/
inductive EngineEvent where
  | browserClose (h : Nat)
  | playwrightStop (p : Nat)
deriving DecidableEq

/-- `Browser.close`: engine-level close/stop calls happen only when
`_force_keep_browser_alive` is unset, but the `finally` block always
resets both fields to `None`. -/
def Browser.close (s : BrowserState) : BrowserState × List EngineEvent :=
  let events :=
    if ¬ s.config._force_keep_browser_alive then
      (match s.playwright_browser with
       | some h => [EngineEvent.browserClose h]
       | none => []) ++
      (match s.playwright with
       | some p => [EngineEvent.playwrightStop p]
       | none => [])
    else []
  ({ s with playwright_browser := none, playwright := none }, events)

/-- `Browser.get_playwright_browser` together with `Browser._init`: when
`playwright_browser is None` the browser is initialized (a fresh driver
and handle, supplied here as parameters for the external engine, and one
strategy invocation); otherwise the stored handle is returned untouched.
The returned list records the strategy invocations performed. -/
def Browser.get_playwright_browser (fresh_pw fresh_handle : Nat) (s : BrowserState) :
    Nat × BrowserState × List Strategy :=
  match s.playwright_browser with
  | some h => (h, s, [])
  | none =>
      (fresh_handle,
       { s with playwright := some fresh_pw, playwright_browser := some fresh_handle },
       [setup_browser_strategy s.config])

/-! ## Round-trip correspondence relations -/

/-- Heterogeneous pointwise relation on `Option`. -/
def optRel {α β : Type} (P : α → β → Prop) : Option α → Option β → Prop
  | none, none => True
  | some a, some b => P a b
  | _, _ => False

/-- Heterogeneous pointwise relation on lists of equal length. -/
def listRel {α β : Type} (P : α → β → Prop) : List α → List β → Prop
  | [], [] => True
  | a :: as, b :: bs => P a b ∧ listRel P as bs
  | _, _ => False

def optRelDec {α β : Type} (P : α → β → Prop) (dp : ∀ a b, Decidable (P a b)) :
    ∀ (o₁ : Option α) (o₂ : Option β), Decidable (optRel P o₁ o₂)
  | none, none => .isTrue trivial
  | none, some _ => .isFalse fun h => h
  | some _, none => .isFalse fun h => h
  | some a, some b => dp a b

instance {α β : Type} {P : α → β → Prop} [∀ a b, Decidable (P a b)] (o₁ : Option α) (o₂ : Option β) :
    Decidable (optRel P o₁ o₂) :=
  optRelDec P (fun _ _ => inferInstance) o₁ o₂

def listRelDec {α β : Type} (P : α → β → Prop) (dp : ∀ a b, Decidable (P a b)) :
    ∀ (l₁ : List α) (l₂ : List β), Decidable (listRel P l₁ l₂)
  | [], [] => .isTrue trivial
  | [], _ :: _ => .isFalse fun h => h
  | _ :: _, [] => .isFalse fun h => h
  | a :: as, b :: bs => @instDecidableAnd _ _ (dp a b) (listRelDec P dp as bs)

instance {α β : Type} {P : α → β → Prop} [∀ a b, Decidable (P a b)] (l₁ : List α) (l₂ : List β) :
    Decidable (listRel P l₁ l₂) :=
  listRelDec P (fun _ _ => inferInstance) l₁ l₂

/-- The text under the `"body"` key persisted for a response, if any. -/
def persistedBodyText (r : HTTPResponseData) : Option String :=
  (HTTPResponse.to_json r).lookup "body" >>= jAsStr

/-- Field-equality of a reconstructed response with its original, bodies
compared as the byte encoding of the persisted text (the spec's
documented lossy exception). -/
def respRoundTripOK (orig recon : HTTPResponseData) : Prop :=
  recon.url = orig.url ∧ recon.status = orig.status ∧ recon.headers = orig.headers ∧
  recon.is_iframe = orig.is_iframe ∧ recon.body_error = orig.body_error ∧
  recon.body = (persistedBodyText orig).map utf8Encode

instance (orig recon : HTTPResponseData) : Decidable (respRoundTripOK orig recon) := by
  unfold respRoundTripOK; infer_instance

/-- Round-trip correspondence for one message: the request is rebuilt
field-for-field, the response per `respRoundTripOK`. -/
def msgRoundTripOK (orig recon : HTTPMessage) : Prop :=
  recon.request = orig.request ∧ optRel respRoundTripOK orig.response recon.response

instance (orig recon : HTTPMessage) : Decidable (msgRoundTripOK orig recon) := by
  unfold msgRoundTripOK; infer_instance

/-- Round-trip correspondence for a whole session: identical name, the
same messages in the same order, each per `msgRoundTripOK`. -/
def sessionRoundTripOK (orig recon : HTTPMessageSession) : Prop :=
  recon.name = orig.name ∧ listRel msgRoundTripOK orig.messages recon.messages

instance (orig recon : HTTPMessageSession) : Decidable (sessionRoundTripOK orig recon) := by
  unfold sessionRoundTripOK; infer_instance

/-- Whether an optional response is absent or has a non-redirect status. -/
def respNonRedirectOK : Option HTTPResponseData → Bool
  | none => true
  | some r => !(decide (300 ≤ r.status) && decide (r.status < 400))

/-- Whether an optional response avoids the empty-string body error. -/
def respBodyErrOK : Option HTTPResponseData → Bool
  | none => true
  | some r => decide (r.body_error ≠ some "")

/-- The proxy descriptor carries no credentials. -/
def credsOmitted : Option ProxySettings → Prop
  | none => True
  | some ps => ps.username = none ∧ ps.password = none

instance (p : Option ProxySettings) : Decidable (credsOmitted p) := by
  unfold credsOmitted; cases p <;> infer_instance

/-! ## Concrete example inputs -/

/-- A typical captured request. -/
def reqW : HTTPRequestData :=
  ⟨"GET", "https://a.example/x", [("accept", "text/html")], some "q=1",
   none, some "https://b.example/y", false⟩

/-- A typical non-redirect response with a captured body. -/
def respW : HTTPResponseData :=
  { url := "https://a.example/x", status := 200,
    headers := [("content-type", "text/html"), ("content-length", "2")],
    is_iframe := false, body := some [104, 105], body_error := none }

/-- A two-message session exercising both a present and an absent response. -/
def sessW : HTTPMessageSession :=
  ⟨[⟨reqW, some respW⟩, ⟨reqW, none⟩], "crawl-1"⟩

/-- A minimal request for the counterexample session. -/
def reqCex : HTTPRequestData := ⟨"GET", "u", [], none, none, none, false⟩

/-- A non-redirect response whose recorded body error is the empty string. -/
def respCexE : HTTPResponseData :=
  { url := "u", status := 200, headers := [], is_iframe := false,
    body := none, body_error := some "" }

/-- Session holding `respCexE`. -/
def sessCex : HTTPMessageSession := ⟨[⟨reqCex, some respCexE⟩], "s"⟩

/-- What deserializing `sessCex`'s serialization actually yields: the
empty-string body error has been dropped. -/
def sessCexRecon : HTTPMessageSession :=
  ⟨[⟨reqCex, some { url := "u", status := 200, headers := [], is_iframe := false,
                    body := none, body_error := none }⟩], "s"⟩

/-- A redirect response that internally captured both a body and an error. -/
def respRedir : HTTPResponseData :=
  { url := "https://a.example/r", status := 301,
    headers := [("location", "https://a.example/z")],
    is_iframe := false, body := some [104], body_error := some "boom" }

/-- A response with a recorded non-empty body error. -/
def respErrW : HTTPResponseData :=
  { url := "https://a.example/x", status := 500, headers := [],
    is_iframe := false, body := none, body_error := some "boom" }

/-- A response with an empty-string body error and no body. -/
def respErrCex : HTTPResponseData :=
  { url := "https://a.example/x", status := 500, headers := [],
    is_iframe := false, body := none, body_error := some "" }

/-- A non-redirect response where both a body and an (empty) body error
were recorded. -/
def respBothCex : HTTPResponseData :=
  { url := "https://a.example/x", status := 200, headers := [],
    is_iframe := false, body := some [104], body_error := some "" }

/-- A response whose content-length header is the superscript-two digit
character: `isdigit`-true but with no decimal value. -/
def respSuper : HTTPResponseData :=
  { url := "https://a.example/x", status := 200,
    headers := [("content-length", "²")], is_iframe := false }

/-- A response whose content-length header is the Arabic-Indic digit
three, a non-ASCII decimal digit. -/
def respArabic : HTTPResponseData :=
  { url := "https://a.example/x", status := 200,
    headers := [("content-length", "٣")], is_iframe := false }

/-- Proxy config with a username but no password. -/
def cfgPartialCreds : BrowserConfig :=
  { proxy_server := some "http://localhost:3128", proxy_username := some "u" }

/-- Config with an empty CDP endpoint and a non-empty WSS endpoint. -/
def cfgCdpEmpty : BrowserConfig :=
  { cdp_url := some "", wss_url := some "ws://h:9222" }

/-- A live browser state whose config keeps the browser alive. -/
def stKeepAlive : BrowserState :=
  { config := { _force_keep_browser_alive := true },
    playwright := some 1, playwright_browser := some 2 }

/-- A live browser state with a stored handle. -/
def stLive : BrowserState :=
  { config := {}, playwright := some 1, playwright_browser := some 7 }

/-! ## Helper lemmas -/

theorem jAsStrOpt_jOfStrOpt (o : Option String) : jAsStrOpt (jOfStrOpt o) = some o := by
  cases o <;> rfl

theorem strEntries_map (hs : List (String × String)) :
    strEntries (hs.map fun kv => (kv.1, JValue.jstr kv.2)) = some hs := by
  induction hs with
  | nil => rfl
  | cons kv rest ih => simp [strEntries, jAsStr, ih]

/-- A serialized request deserializes to exactly the original record. -/
theorem req_roundtrip (r : HTTPRequestData) :
    HTTPRequest.from_json (JValue.jdict (HTTPRequest.to_json r)) = some r := by
  simp [HTTPRequest.from_json, HTTPRequest.to_json, jAsDict, List.lookup,
        jAsStr, jAsBool, jAsStrMap, strEntries_map, jAsStrOpt_jOfStrOpt]

/-- What `HTTPResponse.from_json` rebuilds from a serialized non-redirect
response: the body becomes the byte encoding of the persisted text, and a
falsy (absent or empty) body error is dropped. -/
def reconResp (r : HTTPResponseData) : HTTPResponseData :=
  { r with body := (persistedBodyText r).map utf8Encode,
           body_error := if pyTruthyStrOpt r.body_error then r.body_error else none }


theorem to_json_of_err (r : HTTPResponseData) (h1 : ¬ (300 ≤ r.status ∧ r.status < 400))
    (hbe : pyTruthyStrOpt r.body_error = true) :
    HTTPResponse.to_json r = respBaseDict r ++ [("body_error", JValue.jstr (r.body_error.getD ""))] := by
  unfold HTTPResponse.to_json
  rw [if_pos h1, if_pos hbe]

theorem to_json_of_body (r : HTTPResponseData) (h1 : ¬ (300 ≤ r.status ∧ r.status < 400))
    (hbe : pyTruthyStrOpt r.body_error = false) (hb : pyTruthyBytesOpt r.body = true) :
    HTTPResponse.to_json r = respBaseDict r ++ [("body", JValue.jstr (pyStrBytes (r.body.getD [])))] := by
  unfold HTTPResponse.to_json
  rw [if_pos h1, if_neg (by simp [hbe]), if_pos hb]

theorem to_json_of_plain (r : HTTPResponseData) (h1 : ¬ (300 ≤ r.status ∧ r.status < 400))
    (hbe : pyTruthyStrOpt r.body_error = false) (hb : pyTruthyBytesOpt r.body = false) :
    HTTPResponse.to_json r = respBaseDict r := by
  unfold HTTPResponse.to_json
  rw [if_pos h1, if_neg (by simp [hbe]), if_neg (by simp [hb])]

theorem to_json_of_redirect (r : HTTPResponseData) (h1 : 300 ≤ r.status ∧ r.status < 400) :
    HTTPResponse.to_json r = respBaseDict r := by
  unfold HTTPResponse.to_json
  rw [if_neg (not_not_intro h1)]

/-- `from_json` applied to an explicit base-plus-suffix response dict,
for each of the three possible suffixes. -/
theorem from_json_base_err (r : HTTPResponseData) (e : String) :
    HTTPResponse.from_json
        (JValue.jdict (respBaseDict r ++ [("body_error", JValue.jstr e)])) =
      some ⟨r.url, r.status, r.headers, r.is_iframe, none, some e⟩ := by
  simp [HTTPResponse.from_json, respBaseDict, List.lookup, jAsDict, jAsStr, jAsInt,
        jAsBool, jAsStrMap, strEntries_map, jAsStrOpt]

theorem from_json_base_body (r : HTTPResponseData) (t : String) :
    HTTPResponse.from_json
        (JValue.jdict (respBaseDict r ++ [("body", JValue.jstr t)])) =
      some ⟨r.url, r.status, r.headers, r.is_iframe, some (utf8Encode t), none⟩ := by
  simp [HTTPResponse.from_json, respBaseDict, List.lookup, jAsDict, jAsStr, jAsInt,
        jAsBool, jAsStrMap, strEntries_map, jAsStrOpt]

theorem from_json_base_plain (r : HTTPResponseData) :
    HTTPResponse.from_json (JValue.jdict (respBaseDict r)) =
      some ⟨r.url, r.status, r.headers, r.is_iframe, none, none⟩ := by
  simp [HTTPResponse.from_json, respBaseDict, List.lookup, jAsDict, jAsStr, jAsInt,
        jAsBool, jAsStrMap, strEntries_map, jAsStrOpt]

theorem lookup_base_body (r : HTTPResponseData) :
    (respBaseDict r).lookup "body" = none := by
  simp [respBaseDict, List.lookup]

theorem lookup_base_body_err (r : HTTPResponseData) :
    (respBaseDict r).lookup "body_error" = none := by
  simp [respBaseDict, List.lookup]

/-- A serialized non-redirect response deserializes to `reconResp`. -/
theorem resp_roundtrip (r : HTTPResponseData) (h1 : ¬ (300 ≤ r.status ∧ r.status < 400)) :
    HTTPResponse.from_json (JValue.jdict (HTTPResponse.to_json r)) = some (reconResp r) := by
  cases hbe : pyTruthyStrOpt r.body_error with
  | true =>
      have hj := to_json_of_err r h1 hbe
      have he : r.body_error = some (r.body_error.getD "") := by
        cases h : r.body_error with
        | none => rw [h] at hbe; simp [pyTruthyStrOpt] at hbe
        | some e => rfl
      rw [hj, from_json_base_err]
      unfold reconResp persistedBodyText
      rw [hj, hbe]
      simp [List.lookup_append, lookup_base_body, List.lookup]
      exact he.symm
  | false =>
      cases hb : pyTruthyBytesOpt r.body with
      | true =>
          have hj := to_json_of_body r h1 hbe hb
          rw [hj, from_json_base_body]
          unfold reconResp persistedBodyText
          rw [hj, hbe]
          simp [List.lookup_append, lookup_base_body, List.lookup, jAsStr]
      | false =>
          have hj := to_json_of_plain r h1 hbe hb
          rw [hj, from_json_base_plain]
          unfold reconResp persistedBodyText
          rw [hj, hbe]
          simp [lookup_base_body]

/-- What deserializing a serialized message rebuilds. -/
def reconMsg (m : HTTPMessage) : HTTPMessage :=
  { m with response := m.response.map reconResp }

/-- What deserializing a serialized session rebuilds. -/
def reconSession (s : HTTPMessageSession) : HTTPMessageSession :=
  { s with messages := s.messages.map reconMsg }

theorem to_json_resp_not_empty (r : HTTPResponseData) :
    (HTTPResponse.to_json r).isEmpty = false := by
  unfold HTTPResponse.to_json
  split_ifs <;> simp [respBaseDict]

/-- A serialized message with a non-redirect (or no) response deserializes
to `reconMsg`. -/
theorem msg_roundtrip (m : HTTPMessage) (h1 : respNonRedirectOK m.response = true) :
    HTTPMessage.from_json (JValue.jdict (HTTPMessage.to_json m)) = some (reconMsg m) := by
  cases hresp : m.response with
  | none =>
      simp [HTTPMessage.from_json, HTTPMessage.to_json, hresp, jAsDict, List.lookup,
            req_roundtrip, reconMsg]
  | some r =>
      have hnr : ¬ (300 ≤ r.status ∧ r.status < 400) := by
        rw [hresp] at h1
        simp [respNonRedirectOK] at h1
        omega
      simp [HTTPMessage.from_json, HTTPMessage.to_json, hresp, jAsDict, List.lookup,
            req_roundtrip, jTruthy, to_json_resp_not_empty, resp_roundtrip r hnr, reconMsg]

/-- The message-list comprehension, applied to serialized messages. -/
theorem parse_messages_map (ms : List HTTPMessage)
    (h : ∀ m ∈ ms, respNonRedirectOK m.response = true) :
    parseMessages (ms.map fun m => JValue.jdict (HTTPMessage.to_json m)) =
      some (ms.map reconMsg) := by
  induction ms with
  | nil => rfl
  | cons m rest ih =>
      simp [parseMessages, msg_roundtrip m (h m (by simp)),
            ih (fun x hx => h x (by simp [hx]))]

/-- A serialized session deserializes to `reconSession` when every
response is absent or non-redirect. -/
theorem session_from_to (s : HTTPMessageSession)
    (h : ∀ m ∈ s.messages, respNonRedirectOK m.response = true) :
    HTTPMessageSession.from_json (HTTPMessageSession.to_json s) =
      some (reconSession s) := by
  simp [HTTPMessageSession.from_json, HTTPMessageSession.to_json, List.lookup,
        jAsArr, jAsStr, parse_messages_map s.messages h, reconSession]

theorem listRel_map_self {α β : Type} {P : α → β → Prop} (f : α → β) :
    ∀ (l : List α), (∀ a ∈ l, P a (f a)) → listRel P l (l.map f)
  | [], _ => trivial
  | a :: as, h =>
      ⟨h a (by simp), listRel_map_self f as (fun x hx => h x (by simp [hx]))⟩

/-- `reconResp` matches the original field-for-field when the recorded
body error is not the empty string. -/
theorem respRoundTripOK_reconResp (r : HTTPResponseData) (h2 : r.body_error ≠ some "") :
    respRoundTripOK r (reconResp r) := by
  refine ⟨rfl, rfl, rfl, rfl, ?_, rfl⟩
  show (if pyTruthyStrOpt r.body_error then r.body_error else none) = r.body_error
  cases hbe : r.body_error with
  | none => simp [pyTruthyStrOpt]
  | some e =>
      have he : e ≠ "" := by
        intro h
        exact h2 (h ▸ hbe)
      simp [pyTruthyStrOpt, he]

/-- Whenever the program's serializer produces a response JSON at all,
it is exactly the total model's `HTTPResponse.to_json`. -/
theorem to_json_checked_produces (r : HTTPResponseData) (j : JDict)
    (h : HTTPResponse.to_json_checked r = Except.ok j) :
    j = HTTPResponse.to_json r := by
  unfold HTTPResponse.to_json_checked at h
  cases hs : HTTPResponse.get_response_size r with
  | error e =>
      rw [hs] at h
      simp at h
  | ok v =>
      rw [hs] at h
      simpa using h.symm

theorem resp_to_json_checked_ok (r : HTTPResponseData)
    (h : respSizeOK (some r) = true) :
    HTTPResponse.to_json_checked r = Except.ok (HTTPResponse.to_json r) := by
  have h' : (HTTPResponse.get_response_size r).toOption.isSome = true := h
  unfold HTTPResponse.to_json_checked
  cases hs : HTTPResponse.get_response_size r with
  | error e =>
      rw [hs] at h'
      simp [Except.toOption] at h'
  | ok v => rfl

theorem msg_to_json_checked_ok (m : HTTPMessage) (h : respSizeOK m.response = true) :
    HTTPMessage.to_json_checked m = Except.ok (HTTPMessage.to_json m) := by
  cases hresp : m.response with
  | none => simp [HTTPMessage.to_json_checked, hresp]
  | some r =>
      rw [hresp] at h
      simp [HTTPMessage.to_json_checked, hresp, resp_to_json_checked_ok r h]

theorem msgs_to_json_checked_ok (ms : List HTTPMessage)
    (h : ∀ m ∈ ms, respSizeOK m.response = true) :
    msgsToJsonChecked ms =
      Except.ok (ms.map fun m => JValue.jdict (HTTPMessage.to_json m)) := by
  induction ms with
  | nil => rfl
  | cons m rest ih =>
      simp only [msgsToJsonChecked]
      rw [msg_to_json_checked_ok m (h m (by simp)),
          ih (fun x hx => h x (by simp [hx]))]
      simp

/-- Under the no-raise hypothesis the program's session serializer
succeeds with exactly the total model's document. -/
theorem session_to_json_checked_ok (s : HTTPMessageSession)
    (h : ∀ m ∈ s.messages, respSizeOK m.response = true) :
    HTTPMessageSession.to_json_checked s =
      Except.ok (HTTPMessageSession.to_json s) := by
  unfold HTTPMessageSession.to_json_checked HTTPMessageSession.to_json
  rw [msgs_to_json_checked_ok s.messages h]

/-! ## Claim theorems -/

/-- Claim C2 (amended): constructing a `BrowserConfig` never fails; when
exactly one of the proxy username/password is set, the partial credentials
are silently omitted from the applied proxy descriptor instead of raising
a configuration error. -/
theorem C2_partial_credentials_ignored (cfg : BrowserConfig)
    (h : cfg.proxy_username.isSome ≠ cfg.proxy_password.isSome) :
    ∃ p, BrowserConfig.post_init cfg = Except.ok p ∧ credsOmitted p := by
  have hcred : (pyTruthyStrOpt cfg.proxy_username && pyTruthyStrOpt cfg.proxy_password) = false := by
    cases hu : cfg.proxy_username with
    | none => simp [pyTruthyStrOpt]
    | some u =>
        cases hp : cfg.proxy_password with
        | none => simp [pyTruthyStrOpt]
        | some p =>
            rw [hu, hp] at h
            simp at h
  have hcred' : ¬ ((pyTruthyStrOpt cfg.proxy_username && pyTruthyStrOpt cfg.proxy_password) = true) := by
    simp [hcred]
  unfold BrowserConfig.post_init
  cases hs : pyTruthyStrOpt cfg.proxy_server with
  | false =>
      rw [if_neg (by simp)]
      exact ⟨none, rfl, trivial⟩
  | true =>
      rw [if_pos rfl]
      refine ⟨_, rfl, ?_⟩
      exact ⟨if_neg hcred', if_neg hcred'⟩

/-- Witness for C2: a server with a username and no password. -/
theorem C2_partial_credentials_ignored_witness :
    (cfgPartialCreds.proxy_username.isSome ≠ cfgPartialCreds.proxy_password.isSome) ∧
    ∃ p, BrowserConfig.post_init cfgPartialCreds = Except.ok p ∧ credsOmitted p :=
  ⟨by decide, C2_partial_credentials_ignored cfgPartialCreds (by decide)⟩

/-- Counterexample to C2 as stated: with a proxy server and only a
username, construction succeeds (no error of any kind is raised) and
yields a credential-less proxy descriptor. -/
theorem C2_partial_credentials_ignored_cex :
    BrowserConfig.post_init cfgPartialCreds =
      Except.ok (some ⟨"http://localhost:3128", none, none, none⟩) := by
  rfl

/-- Claim C3 (amended): with `_force_keep_browser_alive` set, `close()`
makes no engine-level close/stop call, but its `finally` block still
resets the stored `playwright_browser` and `playwright` fields to `None`
(it is not a complete no-op on the manager's state). -/
theorem C3_close_keep_alive (s : BrowserState)
    (h : s.config._force_keep_browser_alive = true) :
    Browser.close s = ({ s with playwright_browser := none, playwright := none }, []) := by
  unfold Browser.close
  simp [h]

/-- Witness for C3 at a live keep-alive state. -/
theorem C3_close_keep_alive_witness :
    (stKeepAlive.config._force_keep_browser_alive = true) ∧
    Browser.close stKeepAlive =
      ({ stKeepAlive with playwright_browser := none, playwright := none }, []) :=
  ⟨rfl, C3_close_keep_alive stKeepAlive rfl⟩

/-- Counterexample to C3 as stated: on a keep-alive state holding a live
handle, `close()` performs no engine-level call, yet the stored handle
and driver fields are both changed (cleared). -/
theorem C3_close_keep_alive_cex :
    stKeepAlive.config._force_keep_browser_alive = true ∧
    (Browser.close stKeepAlive).2 = [] ∧
    (Browser.close stKeepAlive).1.playwright_browser ≠ stKeepAlive.playwright_browser ∧
    (Browser.close stKeepAlive).1.playwright ≠ stKeepAlive.playwright := by
  refine ⟨rfl, rfl, by decide, by decide⟩

/-- Claim C4 (amended): strategy selection follows the fixed precedence
CDP > WSS > chrome instance path > standard launch, where a selector
matches only when it is truthy (set and non-empty); in particular a CDP
endpoint set to the empty string is skipped. -/
theorem C4_strategy_precedence (cfg : BrowserConfig) :
    (setup_browser_strategy cfg = Strategy.cdp ↔ pyTruthyStrOpt cfg.cdp_url = true) ∧
    (setup_browser_strategy cfg = Strategy.wss ↔
      (pyTruthyStrOpt cfg.cdp_url = false ∧ pyTruthyStrOpt cfg.wss_url = true)) ∧
    (setup_browser_strategy cfg = Strategy.chromeInstance ↔
      (pyTruthyStrOpt cfg.cdp_url = false ∧ pyTruthyStrOpt cfg.wss_url = false ∧
       pyTruthyStrOpt cfg.chrome_instance_path = true)) ∧
    (setup_browser_strategy cfg = Strategy.standard ↔
      (pyTruthyStrOpt cfg.cdp_url = false ∧ pyTruthyStrOpt cfg.wss_url = false ∧
       pyTruthyStrOpt cfg.chrome_instance_path = false)) := by
  unfold setup_browser_strategy
  cases h1 : pyTruthyStrOpt cfg.cdp_url <;>
    cases h2 : pyTruthyStrOpt cfg.wss_url <;>
      cases h3 : pyTruthyStrOpt cfg.chrome_instance_path <;>
        simp

/-- Counterexample to C4 as stated: both endpoints are set, but because
the CDP endpoint is the empty string (falsy), the WSS strategy is the
one invoked, not CDP. -/
theorem C4_strategy_precedence_cex :
    cfgCdpEmpty.cdp_url.isSome = true ∧ cfgCdpEmpty.wss_url.isSome = true ∧
    setup_browser_strategy cfgCdpEmpty = Strategy.wss ∧
    setup_browser_strategy cfgCdpEmpty ≠ Strategy.cdp := by
  refine ⟨rfl, rfl, by decide, by decide⟩

/-- Claim C5: `get_playwright_browser` is idempotent — with a live stored
handle it returns that handle, leaves the state unchanged, and invokes no
acquisition strategy. -/
theorem C5_acquire_idempotent (s : BrowserState) (fp fh hdl : Nat)
    (h : s.playwright_browser = some hdl) :
    Browser.get_playwright_browser fp fh s = (hdl, s, []) := by
  unfold Browser.get_playwright_browser
  rw [h]

/-- Witness for C5 at a live state. -/
theorem C5_acquire_idempotent_witness :
    (stLive.playwright_browser = some 7) ∧
    Browser.get_playwright_browser 1 2 stLive = (7, stLive, []) :=
  ⟨rfl, C5_acquire_idempotent stLive 1 2 7 rfl⟩

/-- Claim C6: for every response with a redirect status in `[300, 400)`,
the serialized JSON contains neither a `"body"` nor a `"body_error"` key
— even when a body or body error was captured internally — and the
textual rendering ends in the fixed no-body marker instead of attempting
body retrieval. -/
theorem C6_redirect_omits_body (r : HTTPResponseData)
    (h1 : 300 ≤ r.status) (h2 : r.status < 400) :
    (HTTPResponse.to_json r).lookup "body" = none ∧
    (HTTPResponse.to_json r).lookup "body_error" = none ∧
    HTTPResponse.to_str r = HTTPResponse.to_str_head r ++ "[Redirect response - no body]" := by
  have hj := to_json_of_redirect r ⟨h1, h2⟩
  refine ⟨hj ▸ lookup_base_body r, hj ▸ lookup_base_body_err r, ?_⟩
  unfold HTTPResponse.to_str
  rw [if_pos ⟨h1, h2⟩]

/-- Witness for C6 at a 301 response that captured both a body and a
body error internally. -/
theorem C6_redirect_omits_body_witness :
    (300 ≤ respRedir.status ∧ respRedir.status < 400) ∧
    respRedir.body.isSome = true ∧ respRedir.body_error.isSome = true ∧
    ((HTTPResponse.to_json respRedir).lookup "body" = none ∧
     (HTTPResponse.to_json respRedir).lookup "body_error" = none ∧
     HTTPResponse.to_str respRedir =
       HTTPResponse.to_str_head respRedir ++ "[Redirect response - no body]") :=
  ⟨⟨by decide, by decide⟩, rfl, rfl,
   C6_redirect_omits_body respRedir (by decide) (by decide)⟩

/-- Claim C7 (amended): when the recorded body error is a non-empty
string, every `get_body` call raises exactly that stored message (and
performs no retrieval — in this embedding `get_body` is a pure read of
the record). -/
theorem C7_body_error_reraised (r : HTTPResponseData) (e : String)
    (h1 : r.body_error = some e) (h2 : e ≠ "") :
    HTTPResponse.get_body r = Except.error e := by
  unfold HTTPResponse.get_body
  rw [h1]
  simp [pyTruthyStrOpt, h2]

/-- Witness for C7 at a response with error message "boom". -/
theorem C7_body_error_reraised_witness :
    (respErrW.body_error = some "boom") ∧ ("boom" ≠ "") ∧
    HTTPResponse.get_body respErrW = Except.error "boom" :=
  ⟨rfl, by decide, C7_body_error_reraised respErrW "boom" rfl (by decide)⟩

/-- Counterexample to C7 as stated: with `body_error` set to the empty
string, `get_body` does not re-raise the stored message — the falsy
error is skipped and the generic unavailability message is raised
instead. -/
theorem C7_body_error_reraised_cex :
    respErrCex.body_error = some "" ∧
    HTTPResponse.get_body respErrCex = Except.error "Response body not available" :=
  ⟨rfl, rfl⟩

/-- Claim C8: when both `body` and `body_error` are `None` (as in a
response freshly built by `from_pw` before deferred retrieval),
`get_body` raises "Response body not available". -/
theorem C8_missing_body (r : HTTPResponseData)
    (h1 : r.body = none) (h2 : r.body_error = none) :
    HTTPResponse.get_body r = Except.error "Response body not available" := by
  unfold HTTPResponse.get_body
  rw [h1, h2]
  rfl

/-- Witness for C8 at a response built by `from_pw`. -/
theorem C8_missing_body_witness :
    (HTTPResponse.from_pw "https://e.example" 200 [] false).body = none ∧
    (HTTPResponse.from_pw "https://e.example" 200 [] false).body_error = none ∧
    HTTPResponse.get_body (HTTPResponse.from_pw "https://e.example" 200 [] false) =
      Except.error "Response body not available" :=
  ⟨rfl, rfl, C8_missing_body (HTTPResponse.from_pw "https://e.example" 200 [] false) rfl rfl⟩

/-- Claim C9 (amended): the serialized JSON of any response contains at
most one of the keys `"body"` and `"body_error"`; whenever the recorded
body error is truthy (set and non-empty), the `"body"` key is omitted
(`body_error` takes precedence). -/
theorem C9_body_keys_exclusive (r : HTTPResponseData) :
    ((HTTPResponse.to_json r).lookup "body" = none ∨
     (HTTPResponse.to_json r).lookup "body_error" = none) ∧
    (pyTruthyStrOpt r.body_error = false ∨
     (HTTPResponse.to_json r).lookup "body" = none) := by
  by_cases hr : 300 ≤ r.status ∧ r.status < 400
  · have hj := to_json_of_redirect r hr
    exact ⟨Or.inl (hj ▸ lookup_base_body r), Or.inr (hj ▸ lookup_base_body r)⟩
  · cases hbe : pyTruthyStrOpt r.body_error with
    | true =>
        have hj := to_json_of_err r hr hbe
        have hb : (HTTPResponse.to_json r).lookup "body" = none := by
          rw [hj]
          simp [List.lookup_append, lookup_base_body, List.lookup]
        exact ⟨Or.inl hb, Or.inr hb⟩
    | false =>
        cases hbb : pyTruthyBytesOpt r.body with
        | true =>
            have hj := to_json_of_body r hr hbe hbb
            have hb : (HTTPResponse.to_json r).lookup "body_error" = none := by
              rw [hj]
              simp [List.lookup_append, lookup_base_body_err, List.lookup]
            exact ⟨Or.inr hb, Or.inl rfl⟩
        | false =>
            have hj := to_json_of_plain r hr hbe hbb
            exact ⟨Or.inl (hj ▸ lookup_base_body r), Or.inl rfl⟩

/-- Counterexample to C9 as stated: with both fields set but the body
error empty (falsy), the `"body"` key is present and `"body_error"` is
omitted — `body_error` does not take precedence. -/
theorem C9_body_keys_exclusive_cex :
    respBothCex.body.isSome = true ∧ respBothCex.body_error.isSome = true ∧
    ((HTTPResponse.to_json respBothCex).lookup "body").isSome = true ∧
    (HTTPResponse.to_json respBothCex).lookup "body_error" = none :=
  ⟨rfl, rfl, rfl, rfl⟩

/-- The observable behavior of `get_response_size`, stated separately
from the source translation so the two can be compared: the `int()`
value of a `content-length` that passes `isdigit` (raising when a digit
character has no decimal value), `0` in every other case. -/
def contentLengthClaimed (r : HTTPResponseData) : Except String Int :=
  match r.headers.lookup "content-length" with
  | some s => if pyIsDigit s then pyIntOfDigits s else .ok 0
  | none => .ok 0

